import Mathlib

/-!
Shallow embedding of the WaSR training orchestration script (`train.py`).

The script resolves a run configuration from CLI-style input, builds the
data pipeline (datasets and loaders), constructs a model variant, optionally
restores pretrained weights from a blob, assembles the trainer with its
callback set, and runs the fit loop.  External collaborators (the dataset
class, the transforms, the PyTorch `DataLoader` batching behaviour and the
Lightning substrate) are modelled only as far as the claims need them.
-/

namespace WaSR

/-- Module-level default constants of `train.py`. -/
def DEVICE_BATCH_SIZE : Int := 3

def NUM_CLASSES : Int := 3

def PATIENCE : Option Int := none

def LOG_STEPS : Int := 20

def NUM_WORKERS : Int := 1

def NUM_GPUS : Int := -1

def RANDOM_SEED : Option Int := none

def OUTPUT_DIR : String := "output"

def PRETRAINED_DEEPLAB : Bool := true

def PRECISION : Int := 32

def MODEL : String := "wasr_resnet101"

def MONITOR_VAR : String := "val/iou/obstacle"

def MONITOR_VAR_MODE : String := "max"

/-- Raw CLI-style input to `get_arguments`: every optional flag is `none`
when absent from the command line.  `pretrained` is kept as the raw CLI
string because `--pretrained` is declared with `type=bool`, so Python's
`bool` builtin is applied to the string the user typed. -/
structure RawArgs where
  train_file : Option String := none
  val_file : Option String := none
  batch_size : Option Int := none
  validation : Bool := false
  num_classes : Option Int := none
  patience : Option Int := none
  log_steps : Option Int := none
  gpus : Option Int := none
  workers : Option Int := none
  random_seed : Option Int := none
  pretrained : Option String := none
  output_dir : Option String := none
  model_name : Option String := none
  pretrained_weights : Option String := none
  imu : Bool := false
  model : Option String := none
  monitor_metric : Option String := none
  monitor_metric_mode : Option String := none
  no_augmentation : Bool := false
  precision : Option Int := none
  resume_from : Option String := none
  epochs : Option Int := none
deriving Repr, DecidableEq

/-- The resolved run configuration (the `args` namespace after parsing). -/
structure Args where
  train_file : Option String
  val_file : Option String
  batch_size : Int
  validation : Bool
  num_classes : Int
  patience : Option Int
  log_steps : Int
  gpus : Int
  workers : Int
  random_seed : Option Int
  pretrained : Bool
  output_dir : String
  model_name : String
  pretrained_weights : Option String
  imu : Bool
  model : String
  monitor_metric : String
  monitor_metric_mode : String
  no_augmentation : Bool
  precision : Int
  resume_from : Option String
  epochs : Option Int
deriving Repr, DecidableEq

/-- An argparse failure: the parser exits with an error naming the
offending field (`ConfigError` in the spec's taxonomy). -/
structure ConfigError where
  field : String
deriving Repr, DecidableEq

/-- Python's `bool` builtin applied to a string: every non-empty string is
truthy, only the empty string is falsy.  This is what
`argparse.add_argument("--pretrained", type=bool, ...)` applies to the raw
CLI token. -/
def pyBoolOfStr (s : String) : Bool :=
  !s.isEmpty

/-- `get_arguments`: validates the raw CLI input and resolves defaults,
mirroring the `argparse` declarations of `train.py`:
`--model-name` is `required=True`; `--precision` has `choices=[16,32]`;
`--monitor-metric-mode` has `choices=['min','max']`; `--model` has
`choices=['wasr_resnet101','wasr_resnet50','deeplab']`.  A violated
constraint makes the parser fail with a `ConfigError`; `choices` are only
checked on values actually supplied. -/
def get_arguments (r : RawArgs) : Except ConfigError Args :=
  let precision := r.precision.getD PRECISION
  if ¬ (precision = 16 ∨ precision = 32) then
    .error ⟨"precision"⟩
  else
    let mode := (r.monitor_metric_mode).getD MONITOR_VAR_MODE
    if ¬ (mode = "min" ∨ mode = "max") then
      .error ⟨"monitor-metric-mode"⟩
    else
      let model := r.model.getD MODEL
      if ¬ (model = "wasr_resnet101" ∨ model = "wasr_resnet50" ∨ model = "deeplab") then
        .error ⟨"model"⟩
      else
        match r.model_name with
        | none => .error ⟨"model-name"⟩
        | some mn =>
          .ok {
            train_file := r.train_file
            val_file := r.val_file
            batch_size := r.batch_size.getD DEVICE_BATCH_SIZE
            validation := r.validation
            num_classes := r.num_classes.getD NUM_CLASSES
            patience := r.patience
            log_steps := r.log_steps.getD LOG_STEPS
            gpus := r.gpus.getD NUM_GPUS
            workers := r.workers.getD NUM_WORKERS
            random_seed := r.random_seed
            pretrained := match r.pretrained with
              | none => PRETRAINED_DEEPLAB
              | some s => pyBoolOfStr s
            output_dir := r.output_dir.getD OUTPUT_DIR
            model_name := mn
            pretrained_weights := r.pretrained_weights
            imu := r.imu
            model := model
            monitor_metric := r.monitor_metric.getD MONITOR_VAR
            monitor_metric_mode := mode
            no_augmentation := r.no_augmentation
            precision := precision
            resume_from := r.resume_from
            epochs := r.epochs }

/-! ## Transforms and datasets -/

/-- The sample transforms used by `train.py`.  `get_augmentation_transform`
and `PytorchHubNormalization` live in `datasets/transforms.py`, treated as
opaque values here: the orchestration only decides whether and where to
attach them. -/
inductive Transform
  | augmentation
  | pytorchHubNormalization
deriving Repr, DecidableEq

/-- A `DataError` of the spec's taxonomy: a missing or unreadable dataset
manifest. -/
structure DataError where
  msg : String
deriving Repr, DecidableEq

/-- A constructed `MaSTr1325Dataset` instance, recording the constructor
arguments `train.py` passes. -/
structure Dataset where
  file : String
  transform : Option Transform
  normalize_t : Option Transform
  include_original : Bool
deriving Repr, DecidableEq

/-- Modelled from the spec: `MaSTr1325Dataset` (in `datasets/mastr.py`,
not present under `src/`) indexes samples by a manifest file path and,
per §4.2, "fails with `DataError` if a manifest path is missing/unreadable".
`readable` is the set of manifest paths that exist and can be read. -/
def MaSTr1325Dataset (readable : String → Bool) (file : Option String)
    (transform : Option Transform) (normalize_t : Option Transform)
    (include_original : Bool) : Except DataError Dataset :=
  match file with
  | none => .error ⟨"manifest path not supplied"⟩
  | some f =>
    if readable f then
      .ok { file := f, transform := transform, normalize_t := normalize_t,
            include_original := include_original }
    else
      .error ⟨"manifest path missing or unreadable"⟩

/-! ## Loaders -/

/-- The configuration of a `torch.utils.data.DataLoader`.  The field
defaults are PyTorch's documented constructor defaults (`shuffle=False`,
`num_workers=0`, `drop_last=False`), which apply to every argument
`train.py` leaves unspecified. -/
structure DataLoaderCfg where
  batch_size : Int
  shuffle : Bool := false
  num_workers : Int := 0
  drop_last : Bool := false
deriving Repr, DecidableEq

/-- Helper for `chunks`: structural recursion on a fuel bound so the
function reduces definitionally.  With `fuel ≥ xs.length` and `0 < b` the
fuel never runs out. -/
def chunksGo (b : Nat) : Nat → List α → List (List α)
  | _, [] => []
  | 0, _ :: _ => []
  | fuel + 1, x :: xs =>
    if b = 0 then []
    else (x :: xs).take b :: chunksGo b fuel ((x :: xs).drop b)

/-- Split a list into consecutive chunks of `b` elements; the final chunk
is shorter when `b` does not divide the length.  Empty input or `b = 0`
yields no chunks. -/
def chunks (b : Nat) (xs : List α) : List (List α) :=
  chunksGo b xs.length xs

/-- Modelled from the spec: the batches a `DataLoader` yields over a
sequence of samples (§3 Loader: "train: shuffled, drop trailing partial
batch; validation: unshuffled, keep partial batch").  Shuffling is
represented by the caller passing the samples in the iteration order, so
batching is chunking, with the trailing partial chunk discarded when
`drop_last` is set. -/
def loaderBatches (cfg : DataLoaderCfg) (samples : List α) : List (List α) :=
  let cs := chunks cfg.batch_size.toNat samples
  if cfg.drop_last then cs.filter (fun c => c.length = cfg.batch_size.toNat) else cs

/-- The training `DataLoader` of `train.py` (lines 102–103):
`DataLoader(train_ds, batch_size=args.batch_size, shuffle=True,
num_workers=args.workers, drop_last=True)`. -/
def train_dl_cfg (a : Args) : DataLoaderCfg :=
  { batch_size := a.batch_size, shuffle := true, num_workers := a.workers,
    drop_last := true }

/-- The validation `DataLoader` of `train.py` (line 108):
`DataLoader(val_ds, batch_size=args.batch_size, num_workers=args.workers)`;
`shuffle` and `drop_last` keep their constructor defaults. -/
def val_dl_cfg (a : Args) : DataLoaderCfg :=
  { batch_size := a.batch_size, num_workers := a.workers }

/-- The datasets and loaders built by `train_wasr` (lines 92–108). -/
structure Pipeline where
  train_ds : Dataset
  train_dl : DataLoaderCfg
  val : Option (Dataset × DataLoaderCfg)
deriving Repr, DecidableEq

/-- The data-pipeline part of `train_wasr`: the augmentation transform is
built unless `--no-augmentation` is set and attached to the training
dataset only; the validation dataset and loader are built only when
`--validation` is set, with `include_original=True` and no transform. -/
def buildPipeline (readable : String → Bool) (a : Args) : Except DataError Pipeline :=
  let normalize_t := some Transform.pytorchHubNormalization
  let transform : Option Transform :=
    if ¬ a.no_augmentation then some .augmentation else none
  match MaSTr1325Dataset readable a.train_file transform normalize_t false with
  | .error e => .error e
  | .ok train_ds =>
    if a.validation then
      match MaSTr1325Dataset readable a.val_file none normalize_t true with
      | .error e => .error e
      | .ok val_ds =>
        .ok { train_ds := train_ds, train_dl := train_dl_cfg a,
              val := some (val_ds, val_dl_cfg a) }
    else
      .ok { train_ds := train_ds, train_dl := train_dl_cfg a, val := none }

/-! ## Model builder -/

/-- A model-constructor invocation: which factory from `wasr.models` is
called and with exactly which arguments, as written in `train.py`. -/
inductive ModelCall
  | wasr_deeplabv2_resnet101 (num_classes : Int) (pretrained : Bool) (imu : Bool)
  | wasr_deeplabv2_resnet50 (num_classes : Int) (imu : Bool)
  | deeplabv3_resnet101 (num_classes : Int) (pretrained : Bool)
deriving Repr, DecidableEq

/-- The variant dispatch of `train.py` (lines 110–115): an `if/elif/elif`
chain on `args.model`.  No branch matching leaves `model` unbound, which
the embedding records as `none`. -/
def buildModel (a : Args) : Option ModelCall :=
  if a.model = "wasr_resnet101" then
    some (.wasr_deeplabv2_resnet101 a.num_classes a.pretrained a.imu)
  else if a.model = "wasr_resnet50" then
    some (.wasr_deeplabv2_resnet50 a.num_classes a.imu)
  else if a.model = "deeplab" then
    some (.deeplabv3_resnet101 a.num_classes a.pretrained)
  else
    none

/-! ## Weight loading -/

/-- A Python value as stored in a weight blob: a tensor (abstracted to its
raw contents) or a string-keyed mapping. -/
inductive PyVal
  | tensor (data : List Int)
  | dict (entries : List (String × PyVal))

/-- A loaded weight blob: the string-keyed mapping `torch.load` returns. -/
abbrev StateDict := List (String × PyVal)

/-- Python's `k in d` membership test on a mapping. -/
def dictContains (d : StateDict) (k : String) : Bool :=
  d.any (fun e => e.1 = k)

/-- Python's `d[k]` lookup on a mapping (first binding wins; a Python dict
has unique keys). -/
def dictGet (d : StateDict) (k : String) : Option PyVal :=
  (d.find? (fun e => e.1 = k)).map (·.2)

/-- The weight-blob unwrapping of `train.py` (lines 120–124): if the loaded
mapping contains the key `model`, the value under that key is handed to
`model.load_state_dict`, otherwise the mapping itself is. -/
def selectStateDict (blob : StateDict) : PyVal :=
  if dictContains blob "model" then
    (dictGet blob "model").getD (.dict [])
  else
    .dict blob

/-! ## Callbacks and trainer -/

/-- A Lightning callback as constructed by `train.py`, recording the
constructor arguments. -/
inductive Callback
  | earlyStopping (monitor : String) (patience : Int) (mode : String)
  | modelCheckpoint (save_last : Bool) (save_top_k : Int) (monitor : String) (mode : String)
deriving Repr, DecidableEq

/-- The callback list of `train.py` (lines 132–137): empty unless
validation is enabled; with validation, `EarlyStopping` is appended only
when `patience` is set, and `ModelCheckpoint(save_last=True, save_top_k=1)`
is always appended. -/
def buildCallbacks (a : Args) : List Callback :=
  if a.validation then
    (match a.patience with
     | some p => [.earlyStopping a.monitor_metric p a.monitor_metric_mode]
     | none => []) ++
    [.modelCheckpoint true 1 a.monitor_metric a.monitor_metric_mode]
  else
    []

/-- The `pl.Trainer` configuration assembled by `train.py`
(lines 139–147). -/
structure TrainerCfg where
  gpus : Int
  max_epochs : Option Int
  accelerator : String
  resume_from_checkpoint : Option String
  callbacks : List Callback
  sync_batchnorm : Bool
  log_every_n_steps : Int
  precision : Int
deriving Repr, DecidableEq

/-- The trainer `train.py` constructs from the resolved arguments. -/
def buildTrainer (a : Args) : TrainerCfg :=
  { gpus := a.gpus
    max_epochs := a.epochs
    accelerator := "ddp"
    resume_from_checkpoint := a.resume_from
    callbacks := buildCallbacks a
    sync_batchnorm := true
    log_every_n_steps := a.log_steps
    precision := a.precision }

/-! ## Orchestration (`train_wasr`) -/

/-- Modelled from the spec: `pl.seed_everything` belongs to the external
substrate; per §3 the seed is "an integer; if not supplied, generated once"
— it returns the supplied seed unchanged, or the freshly generated value
`fresh` when none was supplied. -/
def seed_everything (seed : Option Int) (fresh : Int) : Int :=
  match seed with
  | some s => s
  | none => fresh

/-- The observable side effects of `train_wasr`, in program order:
the process-wide seeding, the echo of the resolved configuration to the
observer (`logger.log_hyperparams(args)`), and the fit-loop start. -/
inductive Event
  | seedEverything (seed : Int)
  | logHyperparams (args : Args)
  | fit
deriving Repr, DecidableEq

/-- Whether an event is the seeding side effect. -/
def Event.isSeedSet : Event → Bool
  | .seedEverything _ => true
  | _ => false

/-- The `LitModel(model, args.num_classes, args)` wrapper construction. -/
structure LitModelCfg where
  model : ModelCall
  num_classes : Int
  args : Args
deriving Repr, DecidableEq

/-- The `TensorBoardLogger(logs_path, args.model_name)` construction. -/
structure LoggerCfg where
  save_dir : String
  name : String
deriving Repr, DecidableEq

/-- A fatal error escaping `train_wasr`. -/
inductive TrainError
  | data (e : DataError)
  | weight (path : String)
  | nameError (msg : String)
deriving Repr, DecidableEq

/-- Everything a successful `train_wasr` call assembles before `fit`. -/
structure TrainRun where
  args : Args
  pipeline : Pipeline
  lit : LitModelCfg
  loaded : Option PyVal
  logger : LoggerCfg
  trainer : TrainerCfg
  events : List Event

/-- The record a successful `train_wasr` produces (`args` already carries
the written-back seed). -/
def mkRun (a : Args) (pl : Pipeline) (mc : ModelCall) (loaded : Option PyVal)
    (seed : Int) : TrainRun :=
  { args := a
    pipeline := pl
    lit := { model := mc, num_classes := a.num_classes, args := a }
    loaded := loaded
    logger := { save_dir := a.output_dir ++ "/logs", name := a.model_name }
    trainer := buildTrainer a
    events := [.seedEverything seed, .logHyperparams a, .fit] }

/-- `train_wasr` (lines 88–148): seed resolution and write-back, data
pipeline, model variant dispatch, optional weight restoration
(`selectStateDict` applied to the blob loaded from
`args.pretrained_weights`), `LitModel` wrapping, logger, callback and
trainer assembly, fit.  `readable` is the set of readable manifest paths
and `blobs` maps a weights path to the mapping `torch.load` returns;
`fresh` is the seed the substrate would generate when none is supplied. -/
def train_wasr (readable : String → Bool) (blobs : String → Option StateDict)
    (fresh : Int) (a0 : Args) : Except TrainError TrainRun :=
  let seed := seed_everything a0.random_seed fresh
  let a := { a0 with random_seed := some seed }
  match buildPipeline readable a with
  | .error e => .error (.data e)
  | .ok pl =>
    match buildModel a with
    | none => .error (.nameError "model")
    | some mc =>
      match a.pretrained_weights with
      | some path =>
        match blobs path with
        | none => .error (.weight path)
        | some blob => .ok (mkRun a pl mc (some (selectStateDict blob)) seed)
      | none => .ok (mkRun a pl mc none seed)

/-! ## Auxiliary predicates and concrete instances -/

/-- Whether a callback is an `EarlyStopping` instance. -/
def Callback.isEarlyStop : Callback → Bool
  | .earlyStopping _ _ _ => true
  | _ => false

/-- Whether an `Except` value is an error. -/
def isError : Except ε α → Bool
  | .error _ => true
  | .ok _ => false

/-- A concrete resolved configuration used to instantiate theorems at
specific inputs. -/
def baseArgs : Args :=
  { train_file := some "train.txt"
    val_file := some "val.txt"
    batch_size := 3
    validation := false
    num_classes := 3
    patience := none
    log_steps := 20
    gpus := -1
    workers := 1
    random_seed := none
    pretrained := true
    output_dir := "output"
    model_name := "mymodel"
    pretrained_weights := none
    imu := false
    model := "wasr_resnet101"
    monitor_metric := "val/iou/obstacle"
    monitor_metric_mode := "max"
    no_augmentation := false
    precision := 32
    resume_from := none
    epochs := some 10 }

/-- A minimal valid raw CLI input: only the required `--model-name` is
supplied. -/
def baseRaw : RawArgs :=
  { model_name := some "m" }

/-- The configuration `get_arguments` resolves `baseRaw` to. -/
def baseResolved : Args :=
  { train_file := none
    val_file := none
    batch_size := 3
    validation := false
    num_classes := 3
    patience := none
    log_steps := 20
    gpus := -1
    workers := 1
    random_seed := none
    pretrained := true
    output_dir := "output"
    model_name := "m"
    pretrained_weights := none
    imu := false
    model := "wasr_resnet101"
    monitor_metric := "val/iou/obstacle"
    monitor_metric_mode := "max"
    no_augmentation := false
    precision := 32
    resume_from := none
    epochs := none }

/-- A raw input whose three constraints named by the spec all hold but
whose `--model` value is outside the parser's `choices`. -/
def rawModelBogus : RawArgs :=
  { model_name := some "m"
    precision := some 32
    monitor_metric_mode := some "max"
    model := some "bogus" }

/-- The filesystem environment where every manifest path is readable. -/
def allReadable : String → Bool := fun _ => true

/-- The environment with no stored weight blobs. -/
def noBlobs : String → Option StateDict := fun _ => none

/-- The run `train_wasr` produces from `baseArgs` under `allReadable` when
the substrate generates seed 42. -/
def baseRun : TrainRun :=
  mkRun { baseArgs with random_seed := some 42 }
    { train_ds := { file := "train.txt", transform := some .augmentation,
                    normalize_t := some .pytorchHubNormalization,
                    include_original := false },
      train_dl := train_dl_cfg { baseArgs with random_seed := some 42 },
      val := none }
    (.wasr_deeplabv2_resnet101 3 true false) none 42

/-- The pipeline built from `baseArgs` with validation enabled, under
`allReadable`. -/
def basePipelineVal : Pipeline :=
  { train_ds := { file := "train.txt", transform := some .augmentation,
                  normalize_t := some .pytorchHubNormalization,
                  include_original := false },
    train_dl := train_dl_cfg { baseArgs with validation := true },
    val := some ({ file := "val.txt", transform := none,
                   normalize_t := some .pytorchHubNormalization,
                   include_original := true },
                 val_dl_cfg { baseArgs with validation := true }) }

/-! ## General lemmas about batching -/

theorem chunksGo_flatten (b : Nat) (hb : 0 < b) :
    ∀ (fuel : Nat) (xs : List α), xs.length ≤ fuel →
      (chunksGo b fuel xs).flatten = xs := by
  intro fuel
  induction fuel with
  | zero =>
    intro xs hx
    cases xs with
    | nil => rfl
    | cons x t => simp at hx
  | succ n ih =>
    intro xs hx
    cases xs with
    | nil => rfl
    | cons x t =>
      rw [chunksGo]
      rw [if_neg (Nat.pos_iff_ne_zero.mp hb)]
      have hlen : ((x :: t).drop b).length ≤ n := by
        simp only [List.length_drop, List.length_cons] at *
        omega
      rw [List.flatten_cons, ih _ hlen, List.take_append_drop]

/-- Chunking with a positive chunk size concatenates back to the input:
every sample appears exactly once, in order. -/
theorem chunks_flatten (b : Nat) (hb : 0 < b) (xs : List α) :
    (chunks b xs).flatten = xs :=
  chunksGo_flatten b hb xs.length xs le_rfl

theorem chunksGo_map_length {α β : Type} (b : Nat) :
    ∀ (fuel : Nat) (xs : List α) (ys : List β), xs.length = ys.length →
      (chunksGo b fuel xs).map List.length = (chunksGo b fuel ys).map List.length := by
  intro fuel
  induction fuel with
  | zero =>
    intro xs ys h
    cases xs <;> cases ys <;> simp_all [chunksGo]
  | succ n ih =>
    intro xs ys h
    cases xs with
    | nil =>
      cases ys with
      | nil => rfl
      | cons y u => simp at h
    | cons x t =>
      cases ys with
      | nil => simp at h
      | cons y u =>
        rw [chunksGo, chunksGo]
        by_cases hb : b = 0
        · rw [if_pos hb, if_pos hb]
          rfl
        · rw [if_neg hb, if_neg hb]
          simp only [List.map_cons, List.length_take, h]
          rw [ih ((x :: t).drop b) ((y :: u).drop b) (by simp [h])]

/-- The batch-size profile of chunking depends only on the input length. -/
theorem chunks_map_length {α β : Type} (b : Nat) (xs : List α) (ys : List β)
    (h : xs.length = ys.length) :
    (chunks b xs).map List.length = (chunks b ys).map List.length := by
  rw [chunks, chunks, h]
  exact chunksGo_map_length b ys.length xs ys h

/-- Taking lengths commutes with filtering the chunks of a given length. -/
theorem map_length_filter_length (cs : List (List α)) (b : Nat) :
    (cs.filter (fun c => c.length = b)).map List.length =
      (cs.map List.length).filter (fun n => n = b) := by
  induction cs with
  | nil => rfl
  | cons c t ih => by_cases h : c.length = b <;> simp [h, ih]

/-! ## Inversion lemmas -/

/-- A successfully constructed dataset carries exactly the transform and
`include_original` flag it was given. -/
theorem MaSTr1325Dataset_ok {readable : String → Bool} {file : Option String}
    {transform normalize_t : Option Transform} {include_original : Bool}
    {ds : Dataset}
    (h : MaSTr1325Dataset readable file transform normalize_t include_original
      = .ok ds) :
    ds.transform = transform ∧ ds.include_original = include_original := by
  cases file with
  | none => exact Except.noConfusion (by simpa only [MaSTr1325Dataset] using h)
  | some f =>
    simp only [MaSTr1325Dataset] at h
    split at h
    · cases h
      exact ⟨rfl, rfl⟩
    · exact Except.noConfusion h

/-- A successful `train_wasr` run resolves the seed by write-back and its
event trace is seeding, configuration echo, fit, in that order. -/
theorem train_wasr_ok {readable : String → Bool} {blobs : String → Option StateDict}
    {fresh : Int} {a0 : Args} {run : TrainRun}
    (h : train_wasr readable blobs fresh a0 = .ok run) :
    run.args = { a0 with random_seed := some (seed_everything a0.random_seed fresh) } ∧
    run.events = [Event.seedEverything (seed_everything a0.random_seed fresh),
                  Event.logHyperparams run.args, Event.fit] := by
  simp only [train_wasr] at h
  split at h
  · exact Except.noConfusion h
  · split at h
    · exact Except.noConfusion h
    · split at h
      · split at h
        · exact Except.noConfusion h
        · cases h
          exact ⟨rfl, rfl⟩
      · cases h
        exact ⟨rfl, rfl⟩

/-! ## Claims -/

/-- C1, counterexample: a wrapped blob `{model: P}` and the bare blob `P`
with identical parameter content `P = {model: tensor [0]}` do not restore
to the same state — the bare blob's own `model` parameter triggers the
wrapper unwrapping, so the tensor under `model` is loaded instead of `P`
itself. -/
theorem C1_counterexample :
    selectStateDict [("model", PyVal.dict [("model", PyVal.tensor [0])])] =
      PyVal.dict [("model", PyVal.tensor [0])] ∧
    selectStateDict [("model", PyVal.tensor [0])] = PyVal.tensor [0] ∧
    PyVal.dict [("model", PyVal.tensor [0])] ≠ PyVal.tensor [0] :=
  ⟨rfl, rfl, fun h => PyVal.noConfusion h⟩

/-- C1, amended: the loader handles exactly the two blob shapes by key
inspection, and for every pair of blobs — one shaped `{model: P}` and the
bare `P` — with identical parameter content, restoration produces
identical model state, provided the parameter mapping `P` does not itself
contain a key named `model`. -/
theorem C1_amended (P : StateDict) (h : dictContains P "model" = false) :
    selectStateDict [("model", PyVal.dict P)] = PyVal.dict P ∧
    selectStateDict P = PyVal.dict P := by
  constructor
  · rfl
  · simp [selectStateDict, h]

/-- Witness for C1_amended at a concrete parameter mapping. -/
theorem C1_amended_witness :
    selectStateDict [("model", PyVal.dict [("backbone.conv1", PyVal.tensor [1, 2])])] =
      PyVal.dict [("backbone.conv1", PyVal.tensor [1, 2])] ∧
    selectStateDict [("backbone.conv1", PyVal.tensor [1, 2])] =
      PyVal.dict [("backbone.conv1", PyVal.tensor [1, 2])] :=
  C1_amended [("backbone.conv1", PyVal.tensor [1, 2])] rfl

/-- C2: with variant `deeplab` and `--imu` set, model construction
succeeds and the auxiliary-input flag is not applied — the constructed
model equals the one built with `--imu` unset, because the
`deeplabv3_resnet101` call receives no `imu` argument. -/
theorem C2_deeplab_ignores_imu (a : Args) (hm : a.model = "deeplab")
    (hi : a.imu = true) :
    (buildModel a).isSome = true ∧
    buildModel a = some (.deeplabv3_resnet101 a.num_classes a.pretrained) ∧
    buildModel a = buildModel { a with imu := false } := by
  refine ⟨?_, ?_, ?_⟩ <;> simp [buildModel, hm]

/-- Witness for C2_deeplab_ignores_imu at a concrete configuration. -/
theorem C2_deeplab_ignores_imu_witness :
    (buildModel { baseArgs with model := "deeplab", imu := true }).isSome = true ∧
    buildModel { baseArgs with model := "deeplab", imu := true } =
      some (.deeplabv3_resnet101 3 true) ∧
    buildModel { baseArgs with model := "deeplab", imu := true } =
      buildModel { { baseArgs with model := "deeplab", imu := true } with imu := false } :=
  C2_deeplab_ignores_imu { baseArgs with model := "deeplab", imu := true } rfl rfl

/-- C10: for variant `wasr_resnet50` the constructed model does not depend
on the `--pretrained` flag — the `wasr_deeplabv2_resnet50` call receives
only the class count and the imu flag, so two configurations differing
only in `pretrained` produce the same constructor call. -/
theorem C10_resnet50_ignores_pretrained (a : Args) (p1 p2 : Bool)
    (hm : a.model = "wasr_resnet50") :
    buildModel { a with pretrained := p1 } =
      some (.wasr_deeplabv2_resnet50 a.num_classes a.imu) ∧
    buildModel { a with pretrained := p1 } = buildModel { a with pretrained := p2 } := by
  constructor <;> simp [buildModel, hm]

/-- Witness for C10_resnet50_ignores_pretrained at a concrete
configuration. -/
theorem C10_resnet50_ignores_pretrained_witness :
    buildModel { { baseArgs with model := "wasr_resnet50" } with pretrained := true } =
      some (.wasr_deeplabv2_resnet50 3 false) ∧
    buildModel { { baseArgs with model := "wasr_resnet50" } with pretrained := true } =
      buildModel { { baseArgs with model := "wasr_resnet50" } with pretrained := false } :=
  C10_resnet50_ignores_pretrained { baseArgs with model := "wasr_resnet50" } true false rfl

/-- C3: the callback set handed to the trainer is exactly the built list;
it is empty whenever validation is disabled; with validation enabled a
`ModelCheckpoint(save_last=True, save_top_k=1)` on the monitored metric
and mode is always present, and an `EarlyStopping` callback is present if
and only if `patience` is set, monitoring the configured metric name and
direction. -/
theorem C3_callbacks (a : Args) :
    (buildTrainer a).callbacks = buildCallbacks a ∧
    (a.validation = false → buildCallbacks a = []) ∧
    (a.validation = true →
      Callback.modelCheckpoint true 1 a.monitor_metric a.monitor_metric_mode ∈
        buildCallbacks a ∧
      (buildCallbacks a).any Callback.isEarlyStop = a.patience.isSome ∧
      (∀ p, a.patience = some p →
        Callback.earlyStopping a.monitor_metric p a.monitor_metric_mode ∈
          buildCallbacks a)) := by
  refine ⟨rfl, ?_, ?_⟩
  · intro h
    simp [buildCallbacks, h]
  · intro h
    refine ⟨?_, ?_, ?_⟩
    · cases hp : a.patience <;> simp [buildCallbacks, h, hp]
    · cases hp : a.patience <;> simp [buildCallbacks, h, hp, Callback.isEarlyStop]
    · intro p hp
      simp [buildCallbacks, h, hp]

/-- Witness for C3_callbacks: no validation gives no callbacks; with
validation and `patience = 3` both callbacks are present. -/
theorem C3_callbacks_witness :
    buildCallbacks baseArgs = [] ∧
    Callback.modelCheckpoint true 1 "val/iou/obstacle" "max" ∈
      buildCallbacks { baseArgs with validation := true, patience := some 3 } ∧
    Callback.earlyStopping "val/iou/obstacle" 3 "max" ∈
      buildCallbacks { baseArgs with validation := true, patience := some 3 } :=
  ⟨(C3_callbacks baseArgs).2.1 rfl,
   ((C3_callbacks { baseArgs with validation := true, patience := some 3 }).2.2 rfl).1,
   ((C3_callbacks { baseArgs with validation := true, patience := some 3 }).2.2 rfl).2.2 3 rfl⟩

/-- C4: the train loader is shuffled with drop-last, the validation loader
is unshuffled without drop-last; for every dataset of 10 samples and batch
size 3 (the train samples in any shuffled order `ys`), the train loader
yields exactly 3 batches of size 3 (the remainder of 1 is discarded) and
the validation loader yields 4 batches, the last of size 1, whose
concatenation is the sample sequence itself — every sample exactly once. -/
theorem C4_loaders {α : Type} (a : Args) (xs ys : List α)
    (hb : a.batch_size = 3) (hxs : xs.length = 10) (hys : ys.length = 10) :
    (train_dl_cfg a).shuffle = true ∧ (train_dl_cfg a).drop_last = true ∧
    (val_dl_cfg a).shuffle = false ∧ (val_dl_cfg a).drop_last = false ∧
    (loaderBatches (train_dl_cfg a) ys).map List.length = [3, 3, 3] ∧
    (loaderBatches (val_dl_cfg a) xs).map List.length = [3, 3, 3, 1] ∧
    (loaderBatches (val_dl_cfg a) xs).flatten = xs := by
  refine ⟨rfl, rfl, rfl, rfl, ?_, ?_, ?_⟩
  · simp only [loaderBatches, train_dl_cfg, hb]
    rw [if_pos trivial]
    rw [map_length_filter_length]
    rw [chunks_map_length ((3 : Int)).toNat ys (List.range 10) (by simp [hys])]
    decide
  · simp only [loaderBatches, val_dl_cfg, hb]
    rw [if_neg (by decide)]
    rw [chunks_map_length ((3 : Int)).toNat xs (List.range 10) (by simp [hxs])]
    decide
  · simp only [loaderBatches, val_dl_cfg, hb]
    rw [if_neg (by decide)]
    exact chunks_flatten (3 : Int).toNat (by decide) xs

/-- Witness for C4_loaders at the concrete sample sequence `0..9`. -/
theorem C4_loaders_witness :
    (train_dl_cfg baseArgs).shuffle = true ∧ (train_dl_cfg baseArgs).drop_last = true ∧
    (val_dl_cfg baseArgs).shuffle = false ∧ (val_dl_cfg baseArgs).drop_last = false ∧
    (loaderBatches (train_dl_cfg baseArgs) (List.range 10)).map List.length = [3, 3, 3] ∧
    (loaderBatches (val_dl_cfg baseArgs) (List.range 10)).map List.length = [3, 3, 3, 1] ∧
    (loaderBatches (val_dl_cfg baseArgs) (List.range 10)).flatten = List.range 10 :=
  C4_loaders baseArgs (List.range 10) (List.range 10) rfl (by decide) (by decide)

/-- C5: in every successful run, an unsupplied seed is replaced by the
generated one, written back into the configuration, the seeding side
effect happens exactly once, and the fully resolved configuration
(including the derived seed) is logged to the observer strictly before the
fit loop starts; a supplied seed is used unchanged. -/
theorem C5_seed (readable : String → Bool) (blobs : String → Option StateDict)
    (fresh : Int) (a0 : Args) (run : TrainRun)
    (h : train_wasr readable blobs fresh a0 = .ok run) :
    (a0.random_seed = none → run.args.random_seed = some fresh) ∧
    (∀ s, a0.random_seed = some s → run.args.random_seed = some s) ∧
    run.events.countP Event.isSeedSet = 1 ∧
    ∃ i j, i < j ∧ run.events.get? i = some (Event.logHyperparams run.args) ∧
      run.events.get? j = some Event.fit := by
  obtain ⟨ha, he⟩ := train_wasr_ok h
  refine ⟨?_, ?_, ?_, 1, 2, by omega, ?_, ?_⟩
  · intro h0
    rw [ha]
    simp [seed_everything, h0]
  · intro s h0
    rw [ha]
    simp [seed_everything, h0]
  · rw [he]
    rfl
  · rw [he]
    rfl
  · rw [he]
    rfl

/-- Witness for C5_seed: a concrete run without a supplied seed receives
the generated seed 42 in its written-back configuration. -/
theorem C5_seed_witness :
    baseRun.args.random_seed = some 42 ∧
    baseRun.events.countP Event.isSeedSet = 1 :=
  have h : train_wasr allReadable noBlobs 42 baseArgs = .ok baseRun := rfl
  ⟨(C5_seed allReadable noBlobs 42 baseArgs baseRun h).1 rfl,
   (C5_seed allReadable noBlobs 42 baseArgs baseRun h).2.2.1⟩

/-- C6: the data pipeline builder fails with a `DataError` whenever
validation is requested without a validation manifest path, and whenever a
manifest path is missing or unreadable (train path absent, train path
unreadable, or — with validation on — validation path unreadable). -/
theorem C6_pipeline_data_errors (readable : String → Bool) (a : Args) :
    (a.validation = true → a.val_file = none →
      isError (buildPipeline readable a) = true) ∧
    (a.train_file = none → isError (buildPipeline readable a) = true) ∧
    (∀ f, a.train_file = some f → readable f = false →
      isError (buildPipeline readable a) = true) ∧
    (∀ f, a.validation = true → a.val_file = some f → readable f = false →
      isError (buildPipeline readable a) = true) := by
  refine ⟨?_, ?_, ?_, ?_⟩
  · intro hv hvf
    cases htf : a.train_file with
    | none => simp [isError, buildPipeline, MaSTr1325Dataset, htf]
    | some f =>
      by_cases hr : readable f = true <;>
        simp [isError, buildPipeline, MaSTr1325Dataset, htf, hr, hv, hvf]
  · intro htf
    simp [isError, buildPipeline, MaSTr1325Dataset, htf]
  · intro f htf hr
    simp [isError, buildPipeline, MaSTr1325Dataset, htf, hr]
  · intro f hv hvf hr
    cases htf : a.train_file with
    | none => simp [isError, buildPipeline, MaSTr1325Dataset, htf]
    | some g =>
      by_cases hg : readable g = true <;>
        simp [isError, buildPipeline, MaSTr1325Dataset, htf, hg, hv, hvf, hr]

/-- Witness for C6_pipeline_data_errors: validation requested without a
validation manifest, and an unreadable train manifest, both fail. -/
theorem C6_pipeline_data_errors_witness :
    isError (buildPipeline allReadable
      { baseArgs with validation := true, val_file := none }) = true ∧
    isError (buildPipeline (fun _ => false) baseArgs) = true :=
  ⟨(C6_pipeline_data_errors allReadable
      { baseArgs with validation := true, val_file := none }).1 rfl rfl,
   (C6_pipeline_data_errors (fun _ => false) baseArgs).2.2.1 "train.txt" rfl rfl⟩

/-- C8: whenever the pipeline is built successfully, the training dataset
carries the augmentation transform exactly when `--no-augmentation` is
absent, and a validation dataset, if built, never carries a transform. -/
theorem C8_augmentation (readable : String → Bool) (a : Args) (pl : Pipeline)
    (h : buildPipeline readable a = .ok pl) :
    (pl.train_ds.transform = some Transform.augmentation ↔ a.no_augmentation = false) ∧
    (a.no_augmentation = true → pl.train_ds.transform = none) ∧
    (∀ vds vdl, pl.val = some (vds, vdl) → vds.transform = none) := by
  simp only [buildPipeline] at h
  split at h
  · exact Except.noConfusion h
  · rename_i tds hm
    obtain ⟨ht, _⟩ := MaSTr1325Dataset_ok hm
    split at h
    · split at h
      · exact Except.noConfusion h
      · rename_i vds hv
        obtain ⟨hvt, _⟩ := MaSTr1325Dataset_ok hv
        cases h
        refine ⟨?_, ?_, ?_⟩
        · cases hna : a.no_augmentation <;> simp [ht, hna]
        · intro hna
          simp [ht, hna]
        · intro vds' vdl' hmem
          simp only [Option.some.injEq, Prod.mk.injEq] at hmem
          rw [← hmem.1]
          exact hvt
    · cases h
      refine ⟨?_, ?_, ?_⟩
      · cases hna : a.no_augmentation <;> simp [ht, hna]
      · intro hna
        simp [ht, hna]
      · intro vds' vdl' hmem
        exact Option.noConfusion hmem

/-- Witness for C8_augmentation on the concrete validation pipeline. -/
theorem C8_augmentation_witness :
    basePipelineVal.train_ds.transform = some Transform.augmentation ∧
    ({ file := "val.txt", transform := none,
       normalize_t := some .pytorchHubNormalization,
       include_original := true } : Dataset).transform = none :=
  have h : buildPipeline allReadable { baseArgs with validation := true } =
      .ok basePipelineVal := rfl
  ⟨((C8_augmentation allReadable { baseArgs with validation := true }
      basePipelineVal h).1).mpr rfl,
   (C8_augmentation allReadable { baseArgs with validation := true }
      basePipelineVal h).2.2
     { file := "val.txt", transform := none,
       normalize_t := some .pytorchHubNormalization, include_original := true }
     (val_dl_cfg { baseArgs with validation := true }) rfl⟩

/-- C7, counterexample: an input that satisfies all three constraints the
claim names (model name present, precision 32, monitor mode `max`) still
fails configuration resolution, because its `--model` value is outside the
parser's `choices`. -/
theorem C7_counterexample :
    rawModelBogus.model_name = some "m" ∧
    rawModelBogus.precision = some 32 ∧
    rawModelBogus.monitor_metric_mode = some "max" ∧
    get_arguments rawModelBogus = .error ⟨"model"⟩ :=
  ⟨rfl, rfl, rfl, rfl⟩

/-- C7, amended: resolution fails with a `ConfigError` for every input
that omits the required model name, supplies a precision outside
`{16, 32}`, or a monitor-metric-mode outside `{min, max}`; and for every
input satisfying these constraints whose model variant, when supplied, is
within `{wasr_resnet101, wasr_resnet50, deeplab}`, it produces a resolved
configuration record. -/
theorem C7_amended (r : RawArgs) :
    (r.model_name = none → isError (get_arguments r) = true) ∧
    (∀ p, r.precision = some p → ¬(p = 16 ∨ p = 32) →
      isError (get_arguments r) = true) ∧
    (∀ m, r.monitor_metric_mode = some m → ¬(m = "min" ∨ m = "max") →
      isError (get_arguments r) = true) ∧
    ((∃ n, r.model_name = some n) →
     (∀ p, r.precision = some p → p = 16 ∨ p = 32) →
     (∀ m, r.monitor_metric_mode = some m → m = "min" ∨ m = "max") →
     (∀ m, r.model = some m →
       m = "wasr_resnet101" ∨ m = "wasr_resnet50" ∨ m = "deeplab") →
     isError (get_arguments r) = false) := by
  refine ⟨?_, ?_, ?_, ?_⟩
  · intro h0
    simp only [get_arguments, h0]
    split
    · rfl
    · split
      · rfl
      · split
        · rfl
        · rfl
  · intro p hp hv
    simp only [get_arguments, hp, Option.getD_some]
    rw [if_pos hv]
    rfl
  · intro m hm hv
    simp only [get_arguments, hm, Option.getD_some]
    split
    · rfl
    · rfl
  · intro hn hp hm hmod
    obtain ⟨n, hn⟩ := hn
    have h1 : r.precision.getD PRECISION = 16 ∨ r.precision.getD PRECISION = 32 := by
      cases hq : r.precision with
      | none => right; rfl
      | some p => simpa [hq] using hp p hq
    have h2 : r.monitor_metric_mode.getD MONITOR_VAR_MODE = "min" ∨
        r.monitor_metric_mode.getD MONITOR_VAR_MODE = "max" := by
      cases hq : r.monitor_metric_mode with
      | none => right; rfl
      | some m => simpa [hq] using hm m hq
    have h3 : r.model.getD MODEL = "wasr_resnet101" ∨
        r.model.getD MODEL = "wasr_resnet50" ∨ r.model.getD MODEL = "deeplab" := by
      cases hq : r.model with
      | none => left; rfl
      | some m => simpa [hq] using hmod m hq
    simp only [get_arguments]
    rw [if_neg (not_not_intro h1), if_neg (not_not_intro h2),
        if_neg (not_not_intro h3), hn]
    rfl

/-- Witness for C7_amended: a missing model name fails; the minimal valid
input resolves. -/
theorem C7_amended_witness :
    isError (get_arguments ({ model_name := none } : RawArgs)) = true ∧
    isError (get_arguments baseRaw) = false :=
  ⟨(C7_amended { model_name := none }).1 rfl,
   (C7_amended baseRaw).2.2.2 ⟨"m", rfl⟩
     (fun p hp => Option.noConfusion hp)
     (fun m hm => Option.noConfusion hm)
     (fun m hm => Option.noConfusion hm)⟩

/-- C9: because `--pretrained` is declared with `type=bool`, every
non-empty CLI string (including `"false"`) parses to `true`, only the
empty string parses to `false`, and the default `true` applies when the
flag is absent. -/
theorem C9_pretrained_parsing (r : RawArgs) (a : Args)
    (h : get_arguments r = .ok a) :
    (∀ s, r.pretrained = some s → s ≠ "" → a.pretrained = true) ∧
    (r.pretrained = some "" → a.pretrained = false) ∧
    (r.pretrained = none → a.pretrained = true) := by
  have hp : a.pretrained = (match r.pretrained with
      | none => PRETRAINED_DEEPLAB
      | some s => pyBoolOfStr s) := by
    simp only [get_arguments] at h
    split at h
    · exact Except.noConfusion h
    · split at h
      · exact Except.noConfusion h
      · split at h
        · exact Except.noConfusion h
        · split at h
          · exact Except.noConfusion h
          · cases h
            rfl
  refine ⟨?_, ?_, ?_⟩
  · intro s hs hne
    have he : s.isEmpty = false := by
      rw [Bool.eq_false_iff]
      intro hcon
      exact hne ((String.isEmpty_iff s).mp hcon)
    rw [hp, hs]
    simp [pyBoolOfStr, he]
  · intro hs
    rw [hp, hs]
    rfl
  · intro hs
    rw [hp, hs]
    rfl

/-- Witness for C9_pretrained_parsing at the strings `"false"`, `""` and
the absent flag. -/
theorem C9_pretrained_parsing_witness :
    baseResolved.pretrained = true ∧
    ({ baseResolved with pretrained := false } : Args).pretrained = false :=
  have h1 : get_arguments { baseRaw with pretrained := some "false" } =
      .ok baseResolved := rfl
  have h2 : get_arguments { baseRaw with pretrained := some "" } =
      .ok { baseResolved with pretrained := false } := rfl
  ⟨(C9_pretrained_parsing _ _ h1).1 "false" rfl (by decide),
   (C9_pretrained_parsing _ _ h2).2.1 rfl⟩

end WaSR
